import Mathlib

/-!
Verification of the swap-and-commission-distribution program in
`src/programs/swap/src/lib.rs` (Anchor/Solana, Rust).

The program body is embedded shallowly: machine integers `u64`/`u128` are
natural numbers with explicit bounds `U64_MOD`/`U128_MOD`, the Rust
`checked_*` operations are `Option`-valued functions, account keys are
an abstract `Pubkey` type, and the externally observable behaviour of
`swap_tokens` is a trace of ledger actions (token transfers and router
invocations) together with a terminal outcome.

Anchor semantics relevant to the embedding: an `Account<'info, T>` is
deserialized once, at instruction entry; reading a field such as
`TokenAccount::amount` after a CPI returns the entry-time snapshot unless
`reload()` is called (the source never calls `reload()`).  In contrast,
`AccountInfo::lamports()` reads the live shared lamport balance, which CPIs
do update.  The embedding therefore distinguishes entry-time snapshots of
token-account `amount` fields from live post-CPI balances.
-/

namespace Swap

/-- Opaque account identifier (Solana `Pubkey`), modelled abstractly as a
natural number.  Only equality of keys matters to the program. -/
structure Pubkey where
  val : Nat
deriving DecidableEq, Repr

/-- `JUPITER_PROGRAM_ID` (lib.rs:8): the single hard-coded trusted router
identity.  The concrete base58 constant is abstracted to a fixed key. -/
def JUPITER_PROGRAM_ID : Pubkey := ⟨1⟩

/-- `USDC_MINT` (lib.rs:11): the hard-coded expected reference/settlement
asset identity.  Distinct from `JUPITER_PROGRAM_ID`. -/
def USDC_MINT : Pubkey := ⟨2⟩

/-- `SwapError` (lib.rs:14-36): the program's error enum. -/
inductive SwapError where
  | InvalidAdmin
  | InvalidReferral
  | InvalidAmount
  | InvalidMinOutAmount
  | CommissionOverflow
  | SlippageExceeded
  | JupiterSwapFailed
  | InvalidJupiterRoute
  | InsufficientBalance
  | InvalidTokenAccount
deriving DecidableEq, Repr

/-- `2 ^ 64`, the modulus of Rust `u64`. -/
def U64_MOD : Nat := 2 ^ 64

/-- `2 ^ 128`, the modulus of Rust `u128`. -/
def U128_MOD : Nat := 2 ^ 128

/-- Rust `u128::checked_mul`: `none` exactly on overflow past `2^128`. -/
def checked_mul_u128 (a b : Nat) : Option Nat :=
  if a * b < U128_MOD then some (a * b) else none

/-- Rust `u128::checked_div`: `none` exactly on division by zero. -/
def checked_div_u128 (a b : Nat) : Option Nat :=
  if b = 0 then none else some (a / b)

/-- Rust `u64::checked_sub`: `none` exactly on underflow. -/
def checked_sub_u64 (a b : Nat) : Option Nat :=
  if b ≤ a then some (a - b) else none

/-- The truncating Rust cast `as u64` applied to a `u128` value. -/
def cast_u64 (a : Nat) : Nat := a % U64_MOD

/-- Commission computation (lib.rs:110-113):
`(input_amount as u128).checked_mul(1).and_then(|v| v.checked_div(100))`
followed by the `as u64` narrowing cast. -/
def computeCommission (input_amount : Nat) : Option Nat :=
  Option.map cast_u64
    (Option.bind (checked_mul_u128 input_amount 1)
      (fun v => checked_div_u128 v 100))

/-- Referral share computation (lib.rs:199-202):
`(usdc_balance as u128).checked_mul(40).and_then(|v| v.checked_div(100))`
followed by the `as u64` narrowing cast. -/
def computeReferralUsdc (usdc_balance : Nat) : Option Nat :=
  Option.map cast_u64
    (Option.bind (checked_mul_u128 usdc_balance 40)
      (fun v => checked_div_u128 v 100))

/-- `SwapAccount` (lib.rs:360-366): the Registry record.  It holds exactly
the two beneficiary identities; there is no bump/self-authority-tag field. -/
structure SwapAccount where
  admin : Pubkey
  referral : Pubkey
deriving DecidableEq, Repr

/-- The PDA seeds of the Registry account (lib.rs:244, lib.rs:267):
`seeds = [b"swap".as_ref()]` — a fixed constant, so the Registry lives at a
single well-known derived address per deployment. -/
def registrySeeds : List String := ["swap"]

/-- The space allocated for the Registry record (lib.rs:243):
`8 + 32 + 32`, annotated in the source as
"discriminator + admin pubkey + referral pubkey". -/
def swapAccountSpace : Nat := 8 + 32 + 32

/-- Modelled from the spec (§3 Data Model): the Registry record as the spec
describes it, holding `admin_identity`, `referral_identity` and a
`self_authority_tag` (derivation seed/bump discriminant).  This definition
follows the spec's words and exists only to be compared with the
source-derived `SwapAccount`. -/
structure RegistrySpecRecord where
  admin_identity : Pubkey
  referral_identity : Pubkey
  self_authority_tag : Nat

/-- Modelled from the spec (§3, §4.1): the minimum serialized space a record
storing both identities plus the self-authority tag would need — the 8-byte
discriminator, two 32-byte identities, and at least one byte of tag. -/
def RegistrySpecRecord.minSpace : Nat := 8 + 32 + 32 + 1

/-- The signers presented to `initialize` (lib.rs:249-255): `admin` and
`referral` are both `Signer` accounts. -/
structure InitializeAccounts where
  adminSigner : Pubkey
  referralSigner : Pubkey
deriving DecidableEq, Repr

/-- `initialize` (lib.rs:50-58): checks the supplied identities against the
two signers (`require_keys_eq!`, in order admin then referral) and, on
success, stores both identities in the Registry record.  On error nothing
is stored (the `Except.error` result carries no record).  The source name
is a Lean keyword, hence the `initRegistry` spelling. -/
def initRegistry (accs : InitializeAccounts) (admin referral : Pubkey) :
    Except SwapError SwapAccount :=
  if admin ≠ accs.adminSigner then Except.error SwapError.InvalidAdmin
  else if referral ≠ accs.referralSigner then Except.error SwapError.InvalidReferral
  else Except.ok { admin := admin, referral := referral }

/-- The ledger accounts touched by `swap_tokens` (lib.rs:263-357). -/
inductive AccountRef where
  | userTokenAccount
  | swapTokenAccount
  | commissionTokenAccount
  | commissionUsdcAccount
  | referralUsdcAccount
  | adminUsdcAccount
  | userSolAccount
deriving DecidableEq, Repr

/-- The two delegated router calls per swap. -/
inductive Leg where
  | user
  | commission
deriving DecidableEq, Repr

/-- An externally observable ledger action issued by `swap_tokens`:
an SPL token transfer of `amount` from `src` to `dst`, or a delegated
Jupiter invocation whose source-of-funds account is `srcAccount`. -/
inductive Action where
  | transfer (src dst : AccountRef) (amount : Nat)
  | invoke (leg : Leg) (srcAccount : AccountRef)
deriving DecidableEq, Repr

/-- Terminal outcome of a `swap_tokens` call: success, an error from the
program's own `SwapError` enum, or an error propagated by `?` from a failed
router invocation (`invoke(...)?`, lib.rs:150/182). -/
inductive SwapOutcome where
  | success
  | programError (e : SwapError)
  | routerError (leg : Leg)
deriving DecidableEq, Repr

/-- The inputs of one `swap_tokens` call: the instruction arguments
(lib.rs:84-87) together with the entry-time deserialized state of the
accounts the body reads.  `user_token_amount` is
`user_token_account.amount` at entry (lib.rs:119) and
`commission_usdc_amount` is `commission_usdc_account.amount` at entry —
the value a post-CPI read of the field returns, absent `reload()`
(lib.rs:196). -/
structure SwapTokensInput where
  input_amount : Nat
  min_output_amount : Nat
  jupiter_program_key : Pubkey
  usdc_mint_key : Pubkey
  user_token_amount : Nat
  commission_usdc_amount : Nat
deriving DecidableEq, Repr

/-- Well-formedness: every `u64`-typed input fits in 64 bits. -/
def SwapTokensInput.wf (inp : SwapTokensInput) : Prop :=
  inp.input_amount < U64_MOD ∧ inp.min_output_amount < U64_MOD ∧
  inp.user_token_amount < U64_MOD ∧ inp.commission_usdc_amount < U64_MOD

instance (inp : SwapTokensInput) : Decidable inp.wf := by
  unfold SwapTokensInput.wf
  infer_instance

/-- The behaviour of the external router (spec §6, §9): an untrusted
black-box collaborator.  `userLegOk` / `commissionLegOk` say whether each
delegated call returns success; `userSolLamportsAfter` is the live lamport
balance of `user_sol_account` after the user-leg call (read via
`AccountInfo::lamports()`, lib.rs:164, which CPIs do update);
`commissionUsdcLiveAfter` is the live on-ledger balance of
`commission_usdc_account` after the commission-leg call — the amount the
router actually credited, which the program never reads. -/
structure RouterEnv where
  userLegOk : Bool
  userSolLamportsAfter : Nat
  commissionLegOk : Bool
  commissionUsdcLiveAfter : Nat
deriving DecidableEq, Repr

/-- `swap_tokens` (lib.rs:83-233), embedded as a function from the call
inputs and the router's behaviour to the trace of ledger actions issued and
the terminal outcome.  Faithful to the source order:
validations (lib.rs:90-105), commission arithmetic (lib.rs:110-116),
balance check (lib.rs:119-120), transfer of `input_amount` — the full
input, not the net amount — into `swap_token_account` (lib.rs:123-133),
user-leg router call sourced from `swap_token_account` (lib.rs:136-161),
slippage check against the live `user_sol_account` lamports (lib.rs:163-165),
commission-leg router call sourced from `commission_token_account`
(lib.rs:168-193), then distribution computed from
`commission_usdc_account.amount` — the entry-time snapshot, since no
`reload()` intervenes (lib.rs:196-205) — and the two distribution
transfers (lib.rs:208-230). -/
def swap_tokens (inp : SwapTokensInput) (env : RouterEnv) :
    List Action × SwapOutcome :=
  if inp.input_amount = 0 then
    ([], SwapOutcome.programError SwapError.InvalidAmount)
  else if inp.min_output_amount = 0 then
    ([], SwapOutcome.programError SwapError.InvalidMinOutAmount)
  else if inp.jupiter_program_key ≠ JUPITER_PROGRAM_ID then
    ([], SwapOutcome.programError SwapError.InvalidJupiterRoute)
  else if inp.usdc_mint_key ≠ USDC_MINT then
    ([], SwapOutcome.programError SwapError.InvalidJupiterRoute)
  else
    match computeCommission inp.input_amount with
    | none => ([], SwapOutcome.programError SwapError.CommissionOverflow)
    | some commission =>
      match checked_sub_u64 inp.input_amount commission with
      | none => ([], SwapOutcome.programError SwapError.CommissionOverflow)
      | some _amount_after_commission =>
        if inp.user_token_amount < inp.input_amount then
          ([], SwapOutcome.programError SwapError.InsufficientBalance)
        else
          let t1 := Action.transfer AccountRef.userTokenAccount
            AccountRef.swapTokenAccount inp.input_amount
          let a1 := Action.invoke Leg.user AccountRef.swapTokenAccount
          if env.userLegOk = false then
            ([t1, a1], SwapOutcome.routerError Leg.user)
          else if env.userSolLamportsAfter < inp.min_output_amount then
            ([t1, a1], SwapOutcome.programError SwapError.SlippageExceeded)
          else
            let a2 := Action.invoke Leg.commission AccountRef.commissionTokenAccount
            if env.commissionLegOk = false then
              ([t1, a1, a2], SwapOutcome.routerError Leg.commission)
            else
              let usdc_balance := inp.commission_usdc_amount
              match computeReferralUsdc usdc_balance with
              | none => ([t1, a1, a2],
                  SwapOutcome.programError SwapError.CommissionOverflow)
              | some referral_usdc =>
                match checked_sub_u64 usdc_balance referral_usdc with
                | none => ([t1, a1, a2],
                    SwapOutcome.programError SwapError.CommissionOverflow)
                | some admin_usdc =>
                  let t2 := Action.transfer AccountRef.commissionUsdcAccount
                    AccountRef.referralUsdcAccount referral_usdc
                  let t3 := Action.transfer AccountRef.commissionUsdcAccount
                    AccountRef.adminUsdcAccount admin_usdc
                  ([t1, a1, a2, t2, t3], SwapOutcome.success)

/-! ### Helper lemmas on the checked arithmetic -/

theorem U64_le_U128 : U64_MOD ≤ U128_MOD := by
  norm_num [U64_MOD, U128_MOD]

theorem computeCommission_eq (n : Nat) (h : n < U64_MOD) :
    computeCommission n = some (n / 100) := by
  have h128 : n * 1 < U128_MOD := by
    have := U64_le_U128
    omega
  have hdiv : n / 100 < U64_MOD := lt_of_le_of_lt (Nat.div_le_self n 100) h
  unfold computeCommission checked_mul_u128 checked_div_u128 cast_u64
  rw [if_pos h128]
  simp only [Option.some_bind]
  rw [if_neg (by norm_num : ¬ (100 : Nat) = 0)]
  simp only [Option.map_some']
  rw [Nat.mul_one, Nat.mod_eq_of_lt hdiv]

theorem referral_le_balance (n : Nat) : n * 40 / 100 ≤ n := by
  have h := Nat.div_mul_le_self (n * 40) 100
  omega

theorem computeReferralUsdc_eq (n : Nat) (h : n < U64_MOD) :
    computeReferralUsdc n = some (n * 40 / 100) := by
  have h128 : n * 40 < U128_MOD := by
    have h1 : n * 40 < U64_MOD * 40 := by omega
    have h2 : U64_MOD * 40 ≤ U128_MOD := by norm_num [U64_MOD, U128_MOD]
    omega
  have hdiv : n * 40 / 100 < U64_MOD :=
    lt_of_le_of_lt (referral_le_balance n) h
  unfold computeReferralUsdc checked_mul_u128 checked_div_u128 cast_u64
  rw [if_pos h128]
  simp only [Option.some_bind]
  rw [if_neg (by norm_num : ¬ (100 : Nat) = 0)]
  simp only [Option.map_some']
  rw [Nat.mod_eq_of_lt hdiv]

theorem checked_sub_u64_eq (a b : Nat) (h : b ≤ a) :
    checked_sub_u64 a b = some (a - b) := by
  simp [checked_sub_u64, h]

/-! ### Claim theorems -/

/-- C1: for every `input_amount > 0` in `u64` range, the commission computed
by `swap_tokens` (lib.rs:110-116) equals `⌊input_amount / 100⌋`, the checked
subtraction yields `input_amount - commission`, and
`commission + net_amount = input_amount` exactly. -/
theorem commission_split_exact (n : Nat) (hpos : 0 < n) (h64 : n < U64_MOD) :
    computeCommission n = some (n / 100) ∧
    checked_sub_u64 n (n / 100) = some (n - n / 100) ∧
    n / 100 + (n - n / 100) = n := by
  refine ⟨computeCommission_eq n h64, checked_sub_u64_eq n (n / 100) (Nat.div_le_self n 100), ?_⟩
  have := Nat.div_le_self n 100
  omega

/-- Witness for `commission_split_exact` at the spec's example
`input_amount = 587000`: commission `5870`, net `581130`. -/
theorem commission_split_exact_witness :
    computeCommission 587000 = some 5870 ∧
    checked_sub_u64 587000 5870 = some 581130 ∧
    5870 + 581130 = 587000 :=
  commission_split_exact 587000 (by decide) (by decide)

/-- C9: for every settlement balance `C` in `u64` range, the referral share
computed by `swap_tokens` (lib.rs:199-205) is `⌊C * 40 / 100⌋`, the admin
share is `C` minus the referral share, and the admin share is at least the
referral share — the admin is the beneficiary of the larger portion. -/
theorem admin_share_ge_referral_share (C : Nat) (hC : C < U64_MOD) :
    computeReferralUsdc C = some (C * 40 / 100) ∧
    checked_sub_u64 C (C * 40 / 100) = some (C - C * 40 / 100) ∧
    C * 40 / 100 ≤ C - C * 40 / 100 := by
  refine ⟨computeReferralUsdc_eq C hC,
    checked_sub_u64_eq C (C * 40 / 100) (referral_le_balance C), ?_⟩
  have h := Nat.div_mul_le_self (C * 40) 100
  omega

/-- Witness for `admin_share_ge_referral_share` at the spec's example
`C = 7064650`: referral `2825860`, admin `4238790`. -/
theorem admin_share_ge_referral_share_witness :
    computeReferralUsdc 7064650 = some 2825860 ∧
    checked_sub_u64 7064650 2825860 = some 4238790 ∧
    2825860 ≤ 4238790 :=
  admin_share_ge_referral_share 7064650 (by decide)

/-- C6 counterexample: the claim says initialization stores both identities
*plus the self-authority tag* in the Registry record.  It does not: the
record created by a successful `initialize` holds exactly the two
identities (`SwapAccount` has no tag field, lib.rs:360-366), and the
space allocated for it (lib.rs:243) is one byte short of the minimum a
record carrying both identities and a one-byte tag would need. -/
theorem registry_has_no_tag_field :
    initRegistry ⟨⟨10⟩, ⟨11⟩⟩ ⟨10⟩ ⟨11⟩ =
      Except.ok { admin := ⟨10⟩, referral := ⟨11⟩ } ∧
    swapAccountSpace < RegistrySpecRecord.minSpace :=
  ⟨rfl, by decide⟩

/-- C6 (amended): successful initialization creates the Registry record at
the single well-known derived address — the PDA seeds are the fixed
constant `["swap"]` — and stores both beneficiary identities; the
self-authority tag (bump) is not stored in the record. -/
theorem initRegistry_stores_identities (accs : InitializeAccounts)
    (admin referral : Pubkey)
    (h1 : admin = accs.adminSigner) (h2 : referral = accs.referralSigner) :
    initRegistry accs admin referral =
      Except.ok { admin := admin, referral := referral } ∧
    registrySeeds = ["swap"] := by
  constructor
  · simp [initRegistry, h1, h2]
  · rfl

/-- Witness for `initRegistry_stores_identities` at concrete keys. -/
theorem initRegistry_stores_identities_witness :
    initRegistry ⟨⟨10⟩, ⟨11⟩⟩ ⟨10⟩ ⟨11⟩ =
      Except.ok { admin := ⟨10⟩, referral := ⟨11⟩ } ∧
    registrySeeds = ["swap"] :=
  initRegistry_stores_identities ⟨⟨10⟩, ⟨11⟩⟩ ⟨10⟩ ⟨11⟩ rfl rfl

/-- C7 counterexample: initialization does *not* fail when the two supplied
identities are equal — with the same key signing as both admin and
referral, `initialize` succeeds and stores `admin = referral`. -/
theorem initRegistry_equal_identities_ok :
    initRegistry ⟨⟨5⟩, ⟨5⟩⟩ ⟨5⟩ ⟨5⟩ =
      Except.ok { admin := ⟨5⟩, referral := ⟨5⟩ } :=
  rfl

/-- C7 (amended): `initialize` enforces no inequality between the two
identities; for any key `k` signing as both admin and referral,
initialization succeeds and the stored Registry has
`admin = referral = k`. -/
theorem initRegistry_no_distinctness_check (k : Pubkey) :
    initRegistry ⟨k, k⟩ k k = Except.ok { admin := k, referral := k } := by
  simp [initRegistry]

/-- C10: `initialize` (lib.rs:51-52) fails with `InvalidAdmin` when the
supplied admin identity differs from the admin signer's key, fails with
`InvalidReferral` when the admin identity matches but the supplied referral
identity differs from the referral signer's key, and in either failure case
returns an error carrying no Registry record — nothing is stored. -/
theorem initRegistry_signer_checks (accs : InitializeAccounts)
    (admin referral : Pubkey) :
    (admin ≠ accs.adminSigner →
      initRegistry accs admin referral = Except.error SwapError.InvalidAdmin) ∧
    (admin = accs.adminSigner → referral ≠ accs.referralSigner →
      initRegistry accs admin referral = Except.error SwapError.InvalidReferral) ∧
    (admin ≠ accs.adminSigner ∨ referral ≠ accs.referralSigner →
      ∀ r : SwapAccount, initRegistry accs admin referral ≠ Except.ok r) := by
  refine ⟨?_, ?_, ?_⟩
  · intro h
    simp [initRegistry, h]
  · intro h1 h2
    simp [initRegistry, h1, h2]
  · intro h r
    rcases h with h | h
    · simp [initRegistry, h]
    · by_cases h1 : admin = accs.adminSigner
      · simp [initRegistry, h1, h]
      · simp [initRegistry, h1]

/-- Witness for `initRegistry_signer_checks`: concrete mismatches in each
direction. -/
theorem initRegistry_signer_checks_witness :
    initRegistry ⟨⟨1⟩, ⟨2⟩⟩ ⟨3⟩ ⟨2⟩ = Except.error SwapError.InvalidAdmin ∧
    initRegistry ⟨⟨1⟩, ⟨2⟩⟩ ⟨1⟩ ⟨4⟩ = Except.error SwapError.InvalidReferral ∧
    ∀ r : SwapAccount, initRegistry ⟨⟨1⟩, ⟨2⟩⟩ ⟨3⟩ ⟨2⟩ ≠ Except.ok r :=
  ⟨(initRegistry_signer_checks ⟨⟨1⟩, ⟨2⟩⟩ ⟨3⟩ ⟨2⟩).1 (by decide),
   (initRegistry_signer_checks ⟨⟨1⟩, ⟨2⟩⟩ ⟨1⟩ ⟨4⟩).2.1 rfl (by decide),
   (initRegistry_signer_checks ⟨⟨1⟩, ⟨2⟩⟩ ⟨3⟩ ⟨2⟩).2.2 (Or.inl (by decide))⟩

/-- C2 (code bug, evaluated at the failing input): at the source's own doc
example (`input_amount = 587000` micro-units, net `581130`), the single
pre-swap transfer (lib.rs:123-133) moves the *full* `input_amount` — not
`net_amount` — from the caller's account into the user-leg holding account,
and no transfer routes any of the source asset into
`commission_token_account`, even though the commission-leg router call
(lib.rs:168-193) draws on that account.  The trace below is the complete
list of ledger actions the call issues. -/
theorem full_input_transferred_bug :
    swap_tokens ⟨587000, 1, JUPITER_PROGRAM_ID, USDC_MINT, 587000, 0⟩
        ⟨true, 1, true, 7064650⟩ =
      ([Action.transfer AccountRef.userTokenAccount AccountRef.swapTokenAccount 587000,
        Action.invoke Leg.user AccountRef.swapTokenAccount,
        Action.invoke Leg.commission AccountRef.commissionTokenAccount,
        Action.transfer AccountRef.commissionUsdcAccount AccountRef.referralUsdcAccount 0,
        Action.transfer AccountRef.commissionUsdcAccount AccountRef.adminUsdcAccount 0],
       SwapOutcome.success) ∧
    587000 - 587000 / 100 = 581130 ∧ (587000 : Nat) ≠ 581130 := by
  decide

/-- C3 (code bug, evaluated at the failing input): the distribution step
(lib.rs:196-205) reads `commission_usdc_account.amount`, which is the value
deserialized at instruction entry — no `reload()` follows the commission-leg
CPI — so the shares are computed from the stale entry snapshot, not from the
balance the router actually credited.  Here the entry snapshot is `0` and
the router credits `7064650` (the spec's example): the realized-balance
split would be `2825860` / `4238790`, yet the call transfers `0` to each
beneficiary and reports success. -/
theorem distribution_reads_stale_balance_bug :
    computeReferralUsdc 7064650 = some 2825860 ∧
    RouterEnv.commissionUsdcLiveAfter ⟨true, 5, true, 7064650⟩ = 7064650 ∧
    swap_tokens ⟨1000, 5, JUPITER_PROGRAM_ID, USDC_MINT, 1000, 0⟩
        ⟨true, 5, true, 7064650⟩ =
      ([Action.transfer AccountRef.userTokenAccount AccountRef.swapTokenAccount 1000,
        Action.invoke Leg.user AccountRef.swapTokenAccount,
        Action.invoke Leg.commission AccountRef.commissionTokenAccount,
        Action.transfer AccountRef.commissionUsdcAccount AccountRef.referralUsdcAccount 0,
        Action.transfer AccountRef.commissionUsdcAccount AccountRef.adminUsdcAccount 0],
       SwapOutcome.success) := by
  decide

/-- C4: `swap_tokens` rejects the request before any fund movement — each
validation failure (lib.rs:90-120) returns the stated error with an empty
action trace, so no transfer or router call has been issued.  The error
conditions are stated with the source's check order: `InvalidAmount` for
`input_amount = 0`, then `InvalidMinOutAmount` for `min_output_amount = 0`,
then `InvalidJupiterRoute` for a router-identity or reference-asset
mismatch, then `InsufficientBalance` when the caller's source-asset balance
is strictly below `input_amount`. -/
theorem swap_validations (inp : SwapTokensInput) (env : RouterEnv) :
    (inp.input_amount = 0 →
      swap_tokens inp env =
        ([], SwapOutcome.programError SwapError.InvalidAmount)) ∧
    (inp.input_amount ≠ 0 → inp.min_output_amount = 0 →
      swap_tokens inp env =
        ([], SwapOutcome.programError SwapError.InvalidMinOutAmount)) ∧
    (inp.input_amount ≠ 0 → inp.min_output_amount ≠ 0 →
      inp.jupiter_program_key ≠ JUPITER_PROGRAM_ID →
      swap_tokens inp env =
        ([], SwapOutcome.programError SwapError.InvalidJupiterRoute)) ∧
    (inp.input_amount ≠ 0 → inp.min_output_amount ≠ 0 →
      inp.jupiter_program_key = JUPITER_PROGRAM_ID →
      inp.usdc_mint_key ≠ USDC_MINT →
      swap_tokens inp env =
        ([], SwapOutcome.programError SwapError.InvalidJupiterRoute)) ∧
    (inp.wf → inp.input_amount ≠ 0 → inp.min_output_amount ≠ 0 →
      inp.jupiter_program_key = JUPITER_PROGRAM_ID →
      inp.usdc_mint_key = USDC_MINT →
      inp.user_token_amount < inp.input_amount →
      swap_tokens inp env =
        ([], SwapOutcome.programError SwapError.InsufficientBalance)) := by
  refine ⟨?_, ?_, ?_, ?_, ?_⟩
  · intro h
    simp [swap_tokens, h]
  · intro h0 h
    simp [swap_tokens, h0, h]
  · intro h0 h1 hj
    simp [swap_tokens, h0, h1, hj]
  · intro h0 h1 hj hu
    simp [swap_tokens, h0, h1, hj, hu]
  · intro hwf h0 h1 hj hu hbal
    simp [swap_tokens, h0, h1, hj, hu, computeCommission_eq _ hwf.1,
      checked_sub_u64_eq _ _ (Nat.div_le_self inp.input_amount 100), hbal]

/-- Witness for `swap_validations`: each validation failure exercised at a
concrete input, with the empty trace and the claimed error. -/
theorem swap_validations_witness :
    swap_tokens ⟨0, 1, JUPITER_PROGRAM_ID, USDC_MINT, 5, 0⟩ ⟨true, 1, true, 0⟩ =
      ([], SwapOutcome.programError SwapError.InvalidAmount) ∧
    swap_tokens ⟨7, 0, JUPITER_PROGRAM_ID, USDC_MINT, 5, 0⟩ ⟨true, 1, true, 0⟩ =
      ([], SwapOutcome.programError SwapError.InvalidMinOutAmount) ∧
    swap_tokens ⟨7, 1, ⟨99⟩, USDC_MINT, 5, 0⟩ ⟨true, 1, true, 0⟩ =
      ([], SwapOutcome.programError SwapError.InvalidJupiterRoute) ∧
    swap_tokens ⟨7, 1, JUPITER_PROGRAM_ID, ⟨99⟩, 5, 0⟩ ⟨true, 1, true, 0⟩ =
      ([], SwapOutcome.programError SwapError.InvalidJupiterRoute) ∧
    swap_tokens ⟨7, 1, JUPITER_PROGRAM_ID, USDC_MINT, 5, 0⟩ ⟨true, 1, true, 0⟩ =
      ([], SwapOutcome.programError SwapError.InsufficientBalance) :=
  ⟨(swap_validations ⟨0, 1, JUPITER_PROGRAM_ID, USDC_MINT, 5, 0⟩ ⟨true, 1, true, 0⟩).1
      rfl,
   (swap_validations ⟨7, 0, JUPITER_PROGRAM_ID, USDC_MINT, 5, 0⟩ ⟨true, 1, true, 0⟩).2.1
      (by decide) rfl,
   (swap_validations ⟨7, 1, ⟨99⟩, USDC_MINT, 5, 0⟩ ⟨true, 1, true, 0⟩).2.2.1
      (by decide) (by decide) (by decide),
   (swap_validations ⟨7, 1, JUPITER_PROGRAM_ID, ⟨99⟩, 5, 0⟩ ⟨true, 1, true, 0⟩).2.2.2.1
      (by decide) (by decide) rfl (by decide),
   (swap_validations ⟨7, 1, JUPITER_PROGRAM_ID, USDC_MINT, 5, 0⟩ ⟨true, 1, true, 0⟩).2.2.2.2
      (by decide) (by decide) (by decide) rfl rfl (by decide)⟩

/-- C5: when every validation passes and the user-leg router call returns,
`swap_tokens` reads the live lamport balance of the caller's destination
account (lib.rs:164) and, if it is below `min_output_amount`, fails with
`SlippageExceeded` (lib.rs:165); the trace then contains exactly the
net-transfer and the user-leg call — the commission-leg router call and the
two distribution transfers are not performed. -/
theorem slippage_postcheck (inp : SwapTokensInput) (env : RouterEnv)
    (hwf : inp.wf) (h0 : inp.input_amount ≠ 0) (h1 : inp.min_output_amount ≠ 0)
    (hj : inp.jupiter_program_key = JUPITER_PROGRAM_ID)
    (hu : inp.usdc_mint_key = USDC_MINT)
    (hbal : ¬ inp.user_token_amount < inp.input_amount)
    (hok : env.userLegOk = true)
    (hslip : env.userSolLamportsAfter < inp.min_output_amount) :
    swap_tokens inp env =
      ([Action.transfer AccountRef.userTokenAccount AccountRef.swapTokenAccount
          inp.input_amount,
        Action.invoke Leg.user AccountRef.swapTokenAccount],
       SwapOutcome.programError SwapError.SlippageExceeded) ∧
    ∀ a ∈ (swap_tokens inp env).1,
      a ≠ Action.invoke Leg.commission AccountRef.commissionTokenAccount ∧
      ∀ dst amt, a ≠ Action.transfer AccountRef.commissionUsdcAccount dst amt := by
  have heq : swap_tokens inp env =
      ([Action.transfer AccountRef.userTokenAccount AccountRef.swapTokenAccount
          inp.input_amount,
        Action.invoke Leg.user AccountRef.swapTokenAccount],
       SwapOutcome.programError SwapError.SlippageExceeded) := by
    simp [swap_tokens, h0, h1, hj, hu, computeCommission_eq _ hwf.1,
      checked_sub_u64_eq _ _ (Nat.div_le_self inp.input_amount 100), hbal, hok,
      hslip]
  refine ⟨heq, ?_⟩
  rw [heq]
  intro a ha
  simp only [List.mem_cons, List.not_mem_nil, or_false] at ha
  rcases ha with h | h <;> subst h <;> exact ⟨by simp, by intro dst amt; simp⟩

/-- Witness for `slippage_postcheck` at a concrete input where the router's
realized output `3` is below the slippage floor `10`. -/
theorem slippage_postcheck_witness :
    swap_tokens ⟨500, 10, JUPITER_PROGRAM_ID, USDC_MINT, 600, 0⟩
        ⟨true, 3, true, 0⟩ =
      ([Action.transfer AccountRef.userTokenAccount AccountRef.swapTokenAccount 500,
        Action.invoke Leg.user AccountRef.swapTokenAccount],
       SwapOutcome.programError SwapError.SlippageExceeded) ∧
    ∀ a ∈ (swap_tokens ⟨500, 10, JUPITER_PROGRAM_ID, USDC_MINT, 600, 0⟩
        ⟨true, 3, true, 0⟩).1,
      a ≠ Action.invoke Leg.commission AccountRef.commissionTokenAccount ∧
      ∀ dst amt, a ≠ Action.transfer AccountRef.commissionUsdcAccount dst amt :=
  slippage_postcheck ⟨500, 10, JUPITER_PROGRAM_ID, USDC_MINT, 600, 0⟩
    ⟨true, 3, true, 0⟩ (by decide) (by decide) (by decide) rfl rfl (by decide)
    rfl (by decide)

/-- C8: for every `u64`-ranged input the commission and share arithmetic of
`swap_tokens` — performed over the `u128` embedding before the narrowing
cast — always succeeds: the checked multiply/divide/subtract steps return
`some`, the narrowed values are exact (no truncation), and consequently no
execution of `swap_tokens` terminates with `CommissionOverflow`. -/
theorem commission_overflow_unreachable (inp : SwapTokensInput)
    (env : RouterEnv) (hwf : inp.wf) :
    computeCommission inp.input_amount = some (inp.input_amount / 100) ∧
    checked_sub_u64 inp.input_amount (inp.input_amount / 100) =
      some (inp.input_amount - inp.input_amount / 100) ∧
    computeReferralUsdc inp.commission_usdc_amount =
      some (inp.commission_usdc_amount * 40 / 100) ∧
    checked_sub_u64 inp.commission_usdc_amount
        (inp.commission_usdc_amount * 40 / 100) =
      some (inp.commission_usdc_amount - inp.commission_usdc_amount * 40 / 100) ∧
    (swap_tokens inp env).2 ≠
      SwapOutcome.programError SwapError.CommissionOverflow := by
  obtain ⟨h1, h2, h3, h4⟩ := hwf
  refine ⟨computeCommission_eq _ h1,
    checked_sub_u64_eq _ _ (Nat.div_le_self inp.input_amount 100),
    computeReferralUsdc_eq _ h4,
    checked_sub_u64_eq _ _ (referral_le_balance inp.commission_usdc_amount), ?_⟩
  simp only [swap_tokens, computeCommission_eq _ h1,
    checked_sub_u64_eq _ _ (Nat.div_le_self inp.input_amount 100),
    computeReferralUsdc_eq _ h4,
    checked_sub_u64_eq _ _ (referral_le_balance inp.commission_usdc_amount)]
  split_ifs <;> simp

/-- Witness for `commission_overflow_unreachable` at the largest `u64`
values: `input_amount = 2^64 - 1` and settlement balance `2^64 - 1`. -/
theorem commission_overflow_unreachable_witness :
    computeCommission (2 ^ 64 - 1) = some ((2 ^ 64 - 1) / 100) ∧
    checked_sub_u64 (2 ^ 64 - 1) ((2 ^ 64 - 1) / 100) =
      some (2 ^ 64 - 1 - (2 ^ 64 - 1) / 100) ∧
    computeReferralUsdc (2 ^ 64 - 1) = some ((2 ^ 64 - 1) * 40 / 100) ∧
    checked_sub_u64 (2 ^ 64 - 1) ((2 ^ 64 - 1) * 40 / 100) =
      some (2 ^ 64 - 1 - (2 ^ 64 - 1) * 40 / 100) ∧
    (swap_tokens ⟨2 ^ 64 - 1, 2 ^ 64 - 1, JUPITER_PROGRAM_ID, USDC_MINT,
        2 ^ 64 - 1, 2 ^ 64 - 1⟩ ⟨true, 2 ^ 64 - 1, true, 2 ^ 64 - 1⟩).2 ≠
      SwapOutcome.programError SwapError.CommissionOverflow :=
  commission_overflow_unreachable
    ⟨2 ^ 64 - 1, 2 ^ 64 - 1, JUPITER_PROGRAM_ID, USDC_MINT, 2 ^ 64 - 1, 2 ^ 64 - 1⟩
    ⟨true, 2 ^ 64 - 1, true, 2 ^ 64 - 1⟩ (by refine ⟨?_, ?_, ?_, ?_⟩ <;> decide)

end Swap
